import Mathlib

/-!
Shallow embedding of `src/geolog/src/utils.py` (SeismicPro plotting utilities)
and verification of the specification's claims about it.

The source module provides three units:
* `IndexTracker` — an interactive scroll-through-frames viewer
  (`__init__`, `onscroll`, `update`);
* `seismic_plot` — static side-by-side seismogram display;
* `spectrum_plot` — seismogram display with an ROI rectangle and the power
  spectrum of the ROI.

Arrays are modelled as lists of lists of rationals; rendering calls are
modelled as records describing the effects performed on the surface
(image drawn, title, aspect, axis limits, save and show actions).
External numeric collaborators (`np.fft.rfft` composed with `abs`) are
parameters of the embedding; `np.fft.rfftfreq` and `np.clip` are embedded
directly from their documented semantics since the claims depend on their
values.
-/

namespace Geolog

/-- A 2-D numeric array, row-major: `a[i][j]` is `a.get i |>.get j`.
Rows are assumed rectangular as numpy arrays are. -/
abbrev Array2 := List (List ℚ)

/-- Shape component 0 of a 2-D array (`a.shape[0]`, the number of rows). -/
def shape0 (a : Array2) : ℕ := a.length

/-- Shape component 1 of a 2-D array (`a.shape[1]`, the number of columns;
for a rectangular array this is the length of the first row). -/
def shape1 (a : Array2) : ℕ := a.headI.length

/-- `np.clip(x, lo, hi)` on integers: maximum with `lo`, then minimum with
`hi`. -/
def clip (x lo hi : ℤ) : ℤ := min (max x lo) hi

/-- A matplotlib `scroll_event`: a direction indicator string
(`event.button`, `'up'` or `'down'` for wheel events, but any value can
arrive) and a magnitude (`event.step`). -/
structure ScrollEvent where
  button : String
  mag : ℤ

/-- State of `IndexTracker`: the frame sequence, the parallel label
sequence, the scroll step fixed at construction (`self.step`), the opaque
imshow keyword bag, and the current index `self.ind`. The axis handle
`self.ax` is modelled by the render records the methods emit. -/
structure IndexTracker where
  frames : List Array2
  frame_names : List String
  step : ℤ
  img_kwargs : List (String × String)
  ind : ℤ

/-- Effects of one `IndexTracker.update` call on the axis: `ax.clear()`,
`ax.imshow(img.T, **kwargs)`, `ax.set_title(name)`, `ax.set_aspect('auto')`,
`ax.set_ylim([img.shape[1], 0])`, `ax.set_xlim([0, img.shape[0]])`. -/
structure RenderRecord where
  cleared : Bool
  image : Array2
  imshowKwargs : List (String × String)
  title : String
  aspect : String
  ylim : ℤ × ℤ
  xlim : ℤ × ℤ
  deriving DecidableEq

/-- The frame currently displayed, `self.frames[self.ind]`. The Python
expression raises for an out-of-range index; every reachable state keeps
the index in range, so the default value of `getD` is never consulted
there. -/
def IndexTracker.currentFrame (t : IndexTracker) : Array2 :=
  t.frames.getD t.ind.toNat []

/-- The label of the current frame, `self.frame_names[self.ind]`. -/
def IndexTracker.currentName (t : IndexTracker) : String :=
  t.frame_names.getD t.ind.toNat ""

/-- `IndexTracker.update`: clear the axis, draw the transposed current
frame, set the title to the current label, force auto aspect, set the
vertical extent to `[img.shape[1], 0]` and the horizontal extent to
`[0, img.shape[0]]` (shapes of the untransposed frame). -/
def IndexTracker.update (t : IndexTracker) : RenderRecord :=
  let img := t.currentFrame
  { cleared := true
    image := img.transpose
    imshowKwargs := t.img_kwargs
    title := t.currentName
    aspect := "auto"
    ylim := ((shape1 img : ℤ), 0)
    xlim := (0, (shape0 img : ℤ)) }

/-- Result of `IndexTracker.__init__`: the constructed state and the render
effects performed during construction. -/
structure InitResult where
  tracker : IndexTracker
  renders : List RenderRecord

/-- `IndexTracker.__init__(ax, frames, frame_names, scroll_step=1,
**kwargs)`: stores the arguments, sets `self.ind = len(frames) // 2`
(integer floor division) and calls `self.update()` once. -/
def IndexTracker.init (frames : List Array2) (frame_names : List String)
    (scroll_step : ℤ) (kwargs : List (String × String)) : InitResult :=
  let t : IndexTracker :=
    { frames := frames
      frame_names := frame_names
      step := scroll_step
      img_kwargs := kwargs
      ind := ((frames.length / 2 : ℕ) : ℤ) }
  { tracker := t, renders := [t.update] }

/-- Result of one `IndexTracker.onscroll` call: the printed line
(`print("%s %s" % (event.button, event.step))`), the new state and the
render performed by the `self.update()` call at the end. -/
structure ScrollResult where
  printed : String
  tracker : IndexTracker
  render : RenderRecord

/-- `IndexTracker.onscroll(event)`: print the event's button and step; if
`event.button == 'up'` set `self.ind = np.clip(self.ind + self.step, 0,
len(self.frames) - 1)`, otherwise (any other button value)
`self.ind = np.clip(self.ind - self.step, 0, len(self.frames) - 1)`;
then `self.update()`. The event's own magnitude `event.step` is printed
but never used in the index computation. -/
def IndexTracker.onscroll (t : IndexTracker) (e : ScrollEvent) : ScrollResult :=
  let n : ℤ := (t.frames.length : ℤ)
  let i : ℤ :=
    if e.button = "up" then clip (t.ind + t.step) 0 (n - 1)
    else clip (t.ind - t.step) 0 (n - 1)
  let t' : IndexTracker := { t with ind := i }
  { printed := e.button ++ " " ++ toString e.mag
    tracker := t'
    render := t'.update }

/-- Fold a sequence of scroll events through `onscroll`, keeping the state. -/
def IndexTracker.run (t : IndexTracker) (es : List ScrollEvent) : IndexTracker :=
  es.foldl (fun s e => (s.onscroll e).tracker) t

lemma clip_lower {lo hi : ℤ} (x : ℤ) (h : lo ≤ hi) : lo ≤ clip x lo hi :=
  le_min (le_max_right x lo) h

lemma clip_upper (x lo hi : ℤ) : clip x lo hi ≤ hi := min_le_right _ _

lemma clip_of_mem {x lo hi : ℤ} (h1 : lo ≤ x) (h2 : x ≤ hi) : clip x lo hi = x := by
  unfold clip
  rw [max_eq_left h1, min_eq_left h2]

lemma onscroll_frames (t : IndexTracker) (e : ScrollEvent) :
    (t.onscroll e).tracker.frames = t.frames := rfl

lemma onscroll_ind_eq (t : IndexTracker) (e : ScrollEvent) :
    (t.onscroll e).tracker.ind =
      if e.button = "up" then clip (t.ind + t.step) 0 ((t.frames.length : ℤ) - 1)
      else clip (t.ind - t.step) 0 ((t.frames.length : ℤ) - 1) := rfl

lemma onscroll_up_ind (t : IndexTracker) (m : ℤ) :
    (t.onscroll ⟨"up", m⟩).tracker.ind =
      clip (t.ind + t.step) 0 ((t.frames.length : ℤ) - 1) := rfl

lemma onscroll_down_ind (t : IndexTracker) (m : ℤ) :
    (t.onscroll ⟨"down", m⟩).tracker.ind =
      clip (t.ind - t.step) 0 ((t.frames.length : ℤ) - 1) := by
  have hb : ("down" : String) ≠ "up" := by decide
  rw [onscroll_ind_eq, if_neg hb]

lemma run_frames (t : IndexTracker) (es : List ScrollEvent) :
    (t.run es).frames = t.frames := by
  induction es generalizing t with
  | nil => rfl
  | cons e es ih => simpa [IndexTracker.run, List.foldl_cons] using ih (t.onscroll e).tracker

lemma onscroll_ind_bounds (t : IndexTracker) (e : ScrollEvent)
    (h : 1 ≤ t.frames.length) :
    0 ≤ (t.onscroll e).tracker.ind ∧
      (t.onscroll e).tracker.ind ≤ (t.frames.length : ℤ) - 1 := by
  have hle : (0 : ℤ) ≤ (t.frames.length : ℤ) - 1 := by
    have : (1 : ℤ) ≤ (t.frames.length : ℤ) := by exact_mod_cast h
    omega
  show 0 ≤ (if e.button = "up" then _ else _) ∧ _
  by_cases hb : e.button = "up" <;>
    simp only [IndexTracker.onscroll, hb, if_true, if_false] <;>
    exact ⟨clip_lower _ hle, clip_upper _ _ _⟩

lemma run_ind_bounds (t : IndexTracker) (es : List ScrollEvent)
    (hn : 1 ≤ t.frames.length) (h0 : 0 ≤ t.ind)
    (h1 : t.ind ≤ (t.frames.length : ℤ) - 1) :
    0 ≤ (t.run es).ind ∧ (t.run es).ind ≤ ((t.run es).frames.length : ℤ) - 1 := by
  induction es generalizing t with
  | nil => exact ⟨h0, h1⟩
  | cons e es ih =>
    have hb := onscroll_ind_bounds t e hn
    have hf : (t.onscroll e).tracker.frames = t.frames := rfl
    have := ih (t.onscroll e).tracker (by rw [hf]; exact hn)
      hb.1 (by rw [hf]; exact hb.2)
    simpa [IndexTracker.run, List.foldl_cons] using this

/-- The `arrs` argument of `seismic_plot` and `spectrum_plot`. The source
normalizes with `if np.asarray(arrs).ndim == 2: arrs = (arrs,)`: a bare
2-D array has `ndim == 2` and is wrapped into a one-element tuple; a
sequence of 2-D arrays has `ndim == 3` (equal shapes) or `ndim == 1`
(ragged object array), never 2, and is left as is. -/
inductive Arrs where
  | single : Array2 → Arrs
  | seq : List Array2 → Arrs

/-- Normalization of `arrs` performed by both plotting functions. -/
def normalizeArrs : Arrs → List Array2
  | .single a => [a]
  | .seq l => l

/-- The `names` argument: absent (`None`), a single string, or a sequence
of strings. -/
inductive NamesArg where
  | absent : NamesArg
  | str : String → NamesArg
  | strs : List String → NamesArg

/-- Normalization of `names`: `if isinstance(names, str): names = (names,)`;
`None` stays `None`. -/
def normalizeNames : NamesArg → Option (List String)
  | .absent => none
  | .str s => some [s]
  | .strs l => some l

/-- One subplot produced by `seismic_plot`: `imshow(arr.T, **kwargs)`, the
optional `set_title(names[i])`, and `set_aspect('auto')`. -/
structure Subplot where
  image : Array2
  imshowKwargs : List (String × String)
  title : Option String
  aspect : String

/-- The figure produced by `seismic_plot`: a single row of subplots, the
optional figure size, whether a save was performed (and to where), and
whether `plt.show()` ran. -/
structure SeismicFig where
  figsize : Option (ℚ × ℚ)
  subplots : List Subplot
  savedTo : Option String
  shown : Bool

/-- `seismic_plot(arrs, names=None, figsize=None, save_to=None, **kwargs)`:
normalize `arrs` and `names`, create one row of subplots (one per array),
draw each transposed array with the forwarded kwargs, title subplot `i`
with `names[i]` when names are given, force auto aspect, and show. The
`save_to` parameter is accepted but no save action is performed. A
`names[i]` lookup past the end raises in Python; the embedding's `getD`
default is only reached in that error case. -/
def seismic_plot (arrs : Arrs) (names : NamesArg) (figsize : Option (ℚ × ℚ))
    (save_to : Option String) (kwargs : List (String × String)) : SeismicFig :=
  let arrs' := normalizeArrs arrs
  let names' := normalizeNames names
  { figsize := figsize
    subplots := arrs'.enum.map (fun p =>
      { image := p.2.transpose
        imshowKwargs := kwargs
        title := names'.map (fun l => l.getD p.1 "")
        aspect := "auto" })
    savedTo := none
    shown := true }

/-- A Python slice `slice(start, stop)` with nonnegative bounds, as used
for the region of interest in `spectrum_plot`. -/
structure Slice where
  start : ℕ
  stop : ℕ

/-- Application of a slice to a list: `l[start:stop]`. -/
def sliceList (s : Slice) (l : List α) : List α :=
  (l.drop s.start).take (s.stop - s.start)

/-- `arr[frame]` for `frame = (rowSlice, colSlice)`: slice the rows, then
slice each remaining row's columns. -/
def roi (fr : Slice × Slice) (a : Array2) : Array2 :=
  (sliceList fr.1 a).map (sliceList fr.2)

/-- `np.fft.rfftfreq(n, d)`: the one-sided frequency bins
`[0, 1, ..., n // 2] / (n * d)`, embedded over the rationals. -/
def rfftfreq (n : ℕ) (d : ℚ) : List ℚ :=
  (List.range (n / 2 + 1)).map (fun (k : ℕ) => (k : ℚ) / ((n : ℚ) * d))

/-- `np.mean(spec, axis=0)`: the column-wise mean of a list of rows. -/
def meanAxis0 (rows : List (List ℚ)) : List ℚ :=
  (List.range rows.headI.length).map
    (fun j => (rows.map (fun r => r.getD j 0)).sum / (rows.length : ℚ))

/-- The pairs of frequency and averaged power that `spectrum_plot` plots:
`mask = freqs <= max_freq if max_freq is not None else freqs` followed by
`freqs[mask]` and `mean[mask]`. With `max_freq` given the mask is a
boolean array and selects exactly the bins with `freq <= max_freq`; with
`max_freq = None` the mask is the float array `freqs` itself and
`freqs[mask]` raises `IndexError` (arrays used as indices must be of
integer or boolean type), modelled as `none`. -/
def maskedSeries (freqs pows : List ℚ) (max_freq : Option ℚ) :
    Option (List (ℚ × ℚ)) :=
  match max_freq with
  | some m => some ((freqs.zip pows).filter (fun p => p.1 ≤ m))
  | none => none

/-- One column of the `spectrum_plot` figure: the top subplot (transposed
image, ROI rectangle at `(frame[0].start, frame[1].start)` of width
`frame[0].stop - frame[0].start` and height `frame[1].stop - frame[1].start`,
red unfilled, line width 2, `Seismogram` title, auto aspect) and the bottom
subplot (frequency/power series, `Hz` x-label, `Spectrum plot` title,
auto aspect). -/
structure SpecColumn where
  image : Array2
  imshowKwargs : List (String × String)
  rectXY : ℤ × ℤ
  rectWidth : ℤ
  rectHeight : ℤ
  rectEdgecolor : String
  rectLw : ℕ
  topTitle : String
  series : List (ℚ × ℚ)
  xlabel : String
  bottomTitle : String

/-- The loop body of `spectrum_plot` for column `i` and array `arr`:
`spec = abs(np.fft.rfft(arr[frame], axis=1))**2`,
`freqs = np.fft.rfftfreq(len(arr[frame][0]), d=timestep)`, masking, and the
draw calls. The external collaborator `rfftAbs` models the composition of
`np.fft.rfft` on one row with the elementwise absolute value; squaring is
applied by this code. `timestep` is the module-level sampling timestep the
source references (a free name in the module, passed here as an ambient
parameter). Returns `none` when the masking step raises. -/
def spectrumColumn (fr : Slice × Slice) (timestep : ℚ)
    (rfftAbs : List ℚ → List ℚ) (max_freq : Option ℚ)
    (names' : Option (List String)) (kwargs : List (String × String))
    (i : ℕ) (arr : Array2) : Option SpecColumn :=
  let block := roi fr arr
  let spec := block.map (fun row => (rfftAbs row).map (fun x => x ^ 2))
  let freqs := rfftfreq block.headI.length timestep
  (maskedSeries freqs (meanAxis0 spec) max_freq).bind (fun s => some
    { image := arr.transpose
      imshowKwargs := kwargs
      rectXY := ((fr.1.start : ℤ), (fr.2.start : ℤ))
      rectWidth := (fr.1.stop : ℤ) - (fr.1.start : ℤ)
      rectHeight := (fr.2.stop : ℤ) - (fr.2.start : ℤ)
      rectEdgecolor := "r"
      rectLw := 2
      topTitle := "Seismogram " ++
        (match names' with | some l => l.getD i "" | none => "")
      series := s
      xlabel := "Hz"
      bottomTitle := "Spectrum plot " ++
        (match names' with | some l => l.getD i "" | none => "") })

/-- Sequential construction of the columns of a `spectrum_plot` figure;
the first column whose body raises aborts the whole call. -/
def buildCols (col : ℕ → Array2 → Option SpecColumn) :
    ℕ → List Array2 → Option (List SpecColumn)
  | _, [] => some []
  | i, a :: rest =>
    match col i a with
    | none => none
    | some c =>
      match buildCols col (i + 1) rest with
      | none => none
      | some cs => some (c :: cs)

/-- The figure produced by `spectrum_plot`: two rows of subplots (columns
here), optional figure size, the save action performed when `save_to` is
given, and the show action. -/
structure SpectrumFig where
  figsize : Option (ℚ × ℚ)
  columns : List SpecColumn
  savedTo : Option String
  shown : Bool

/-- `spectrum_plot(frame, arrs, rate, max_freq=None, names=None,
figsize=None, save_to=None, **kwargs)`: normalize `arrs` and `names`,
build one column per array, save to `save_to` when given, and show.
The `rate` parameter is accepted but never used: the frequency bins are
computed from the module-level `timestep`. Returns `none` when a column
body raises. -/
def spectrum_plot (fr : Slice × Slice) (arrs : Arrs) (rate : ℚ)
    (max_freq : Option ℚ) (names : NamesArg) (figsize : Option (ℚ × ℚ))
    (save_to : Option String) (timestep : ℚ) (rfftAbs : List ℚ → List ℚ)
    (kwargs : List (String × String)) : Option SpectrumFig :=
  let arrs' := normalizeArrs arrs
  let names' := normalizeNames names
  (buildCols (spectrumColumn fr timestep rfftAbs max_freq names' kwargs)
      0 arrs').bind (fun cols => some
    { figsize := figsize
      columns := cols
      savedTo := save_to
      shown := true })

/-- C1. For every scroller constructed on a non-empty frame sequence of
length N and every finite sequence of scroll events, the displayed index
stays in `[0, N-1]` after each event; an event with button `'up'`
("increase") sets the index to `clip (ind + step) 0 (N-1)` and any other
event ("decrease") sets it to `clip (ind - step) 0 (N-1)`: the index is
clamped at the boundaries, never wrapped, and no event is rejected. -/
theorem scroll_index_invariant (frames : List Array2) (names : List String)
    (s : ℤ) (kw : List (String × String)) (es : List ScrollEvent)
    (h : frames ≠ []) :
    (0 ≤ (((IndexTracker.init frames names s kw).tracker).run es).ind ∧
      (((IndexTracker.init frames names s kw).tracker).run es).ind ≤
        (frames.length : ℤ) - 1) ∧
    ∀ (t : IndexTracker) (e : ScrollEvent),
      (t.onscroll e).tracker.ind =
        if e.button = "up" then clip (t.ind + t.step) 0 ((t.frames.length : ℤ) - 1)
        else clip (t.ind - t.step) 0 ((t.frames.length : ℤ) - 1) := by
  constructor
  · have hn : 1 ≤ frames.length := by
      cases frames with
      | nil => exact absurd rfl h
      | cons a l => exact Nat.succ_le_succ (Nat.zero_le _)
    have h0 : (0 : ℤ) ≤ ((frames.length / 2 : ℕ) : ℤ) := Int.ofNat_nonneg _
    have h1 : ((frames.length / 2 : ℕ) : ℤ) ≤ (frames.length : ℤ) - 1 := by
      have : frames.length / 2 ≤ frames.length - 1 := by omega
      omega
    have := run_ind_bounds (IndexTracker.init frames names s kw).tracker es hn h0 h1
    rw [run_frames] at this
    exact this
  · intro t e
    exact onscroll_ind_eq t e

/-- Witness for C1 at a concrete input: one 2×2 frame and three events. -/
theorem scroll_index_invariant_witness :
    (0 ≤ (((IndexTracker.init [[[0, 1], [2, 3]]] ["a"] 1 []).tracker).run
        [⟨"up", 1⟩, ⟨"up", 1⟩, ⟨"down", 1⟩]).ind ∧
      (((IndexTracker.init [[[0, 1], [2, 3]]] ["a"] 1 []).tracker).run
        [⟨"up", 1⟩, ⟨"up", 1⟩, ⟨"down", 1⟩]).ind ≤
        (([[[0, 1], [2, 3]]] : List Array2).length : ℤ) - 1) ∧
    ∀ (t : IndexTracker) (e : ScrollEvent),
      (t.onscroll e).tracker.ind =
        if e.button = "up" then clip (t.ind + t.step) 0 ((t.frames.length : ℤ) - 1)
        else clip (t.ind - t.step) 0 ((t.frames.length : ℤ) - 1) :=
  scroll_index_invariant [[[0, 1], [2, 3]]] ["a"] 1 []
    [⟨"up", 1⟩, ⟨"up", 1⟩, ⟨"down", 1⟩] (by decide)

/-- C5. For every non-empty frame sequence, the constructed scroller's
initial displayed index is `len(frames) // 2` (integer floor division) and
construction performs exactly one initial render — the `update` of the
fresh state — before any scroll event is processed. -/
theorem tracker_init_middle (frames : List Array2) (names : List String)
    (s : ℤ) (kw : List (String × String)) (h : frames ≠ []) :
    (IndexTracker.init frames names s kw).tracker.ind =
      ((frames.length / 2 : ℕ) : ℤ) ∧
    (IndexTracker.init frames names s kw).renders =
      [(IndexTracker.init frames names s kw).tracker.update] ∧
    (IndexTracker.init frames names s kw).renders.length = 1 :=
  ⟨rfl, rfl, rfl⟩

/-- Witness for C5: five 1×1 frames give initial index `5 / 2 = 2`. -/
theorem tracker_init_middle_witness :
    (IndexTracker.init (List.replicate 5 [[0]]) (List.replicate 5 "f") 1
        []).tracker.ind = (((List.replicate 5 ([[0]] : Array2)).length / 2 : ℕ) : ℤ) ∧
    (IndexTracker.init (List.replicate 5 [[0]]) (List.replicate 5 "f") 1
        []).renders =
      [(IndexTracker.init (List.replicate 5 [[0]]) (List.replicate 5 "f") 1
        []).tracker.update] ∧
    (IndexTracker.init (List.replicate 5 [[0]]) (List.replicate 5 "f") 1
        []).renders.length = 1 :=
  tracker_init_middle (List.replicate 5 [[0]]) (List.replicate 5 "f") 1 []
    (by decide)

/-- C6. Applying "increase" then "decrease" with the scroller's step `s`
returns to the original index `i` whenever `0 ≤ i`, `0 ≤ s` and
`i + s ≤ N - 1`; at the upper boundary the symmetry breaks: for `N ≥ 2`,
from `i = N - 1` with step 1, increase then decrease yields `N - 2`,
not `N - 1`. -/
theorem scroll_inc_dec_symmetry (t : IndexTracker) :
    (0 ≤ t.ind → 0 ≤ t.step → t.ind + t.step ≤ (t.frames.length : ℤ) - 1 →
      ((((t.onscroll ⟨"up", 1⟩).tracker).onscroll ⟨"down", 1⟩).tracker).ind =
        t.ind) ∧
    (t.ind = (t.frames.length : ℤ) - 1 → t.step = 1 → 2 ≤ t.frames.length →
      ((((t.onscroll ⟨"up", 1⟩).tracker).onscroll ⟨"down", 1⟩).tracker).ind =
        (t.frames.length : ℤ) - 2) := by
  have hfr : (t.onscroll ⟨"up", 1⟩).tracker.frames = t.frames := rfl
  have hst : (t.onscroll ⟨"up", 1⟩).tracker.step = t.step := rfl
  constructor
  · intro h0 hs h1
    have hup : (t.onscroll ⟨"up", 1⟩).tracker.ind = t.ind + t.step := by
      rw [onscroll_up_ind]
      exact clip_of_mem (by omega) h1
    rw [onscroll_down_ind, hup, hfr, hst, add_sub_cancel_right]
    exact clip_of_mem h0 (by omega)
  · intro hi hs hn
    have hn' : (2 : ℤ) ≤ (t.frames.length : ℤ) := by exact_mod_cast hn
    have hup : (t.onscroll ⟨"up", 1⟩).tracker.ind = (t.frames.length : ℤ) - 1 := by
      rw [onscroll_up_ind, hi, hs]
      unfold clip
      omega
    rw [onscroll_down_ind, hup, hfr, hst, hs]
    unfold clip
    omega

/-- Witness for C6: both parts at concrete trackers over 5 frames — from
index 1 with step 2, up then down returns to 1; from index 4 with step 1,
up then down yields 3. -/
theorem scroll_inc_dec_symmetry_witness :
    (((((⟨List.replicate 5 [[0]], List.replicate 5 "f", 2, [], 1⟩ :
          IndexTracker).onscroll ⟨"up", 1⟩).tracker).onscroll
            ⟨"down", 1⟩).tracker).ind = 1 ∧
    (((((⟨List.replicate 5 [[0]], List.replicate 5 "f", 1, [], 4⟩ :
          IndexTracker).onscroll ⟨"up", 1⟩).tracker).onscroll
            ⟨"down", 1⟩).tracker).ind =
      (((List.replicate 5 ([[0]] : Array2)).length : ℤ)) - 2 :=
  ⟨(scroll_inc_dec_symmetry
      ⟨List.replicate 5 [[0]], List.replicate 5 "f", 2, [], 1⟩).1
      (by decide) (by decide) (by decide),
    (scroll_inc_dec_symmetry
      ⟨List.replicate 5 [[0]], List.replicate 5 "f", 1, [], 4⟩).2
      (by decide) (by decide) (by decide)⟩

/-- C10. Every scroll event whose button is any value other than `'up'`
(including unknown or malformed indicators) is treated as a decrease: the
index becomes `clip (ind - step) 0 (N-1)`; no button value is rejected. -/
theorem onscroll_non_up_decrease (t : IndexTracker) (e : ScrollEvent)
    (h : e.button ≠ "up") :
    (t.onscroll e).tracker.ind =
      clip (t.ind - t.step) 0 ((t.frames.length : ℤ) - 1) := by
  rw [onscroll_ind_eq, if_neg h]

/-- Witness for C10: a malformed button string `"wheelzzz"` decreases the
index from 3 to 2. -/
theorem onscroll_non_up_decrease_witness :
    ("wheelzzz" : String) ≠ "up" ∧
    ((⟨List.replicate 5 [[0]], List.replicate 5 "f", 1, [], 3⟩ :
        IndexTracker).onscroll ⟨"wheelzzz", 7⟩).tracker.ind =
      clip (3 - 1) 0 (((List.replicate 5 ([[0]] : Array2)).length : ℤ) - 1) :=
  ⟨by decide,
    onscroll_non_up_decrease
      ⟨List.replicate 5 [[0]], List.replicate 5 "f", 1, [], 3⟩
      ⟨"wheelzzz", 7⟩ (by decide)⟩

/-- C3, counterexample. The claim says the handler applies the per-event
step to the index update, so that with 5 frames, scroll step defaulted
to 1 and start index 2, the events (up, step 1), (up, step 10),
(down, step 10) would end at index 0. The code applies the fixed
`self.step` instead: the run ends at index 3, not 0. -/
theorem onscroll_event_step_counterexample :
    (((IndexTracker.init
        (List.replicate 5 (List.replicate 10 (List.replicate 10 0)))
        (List.replicate 5 "f") 1 []).tracker).run
      [⟨"up", 1⟩, ⟨"up", 10⟩, ⟨"down", 10⟩]).ind = 3 ∧ (3 : ℤ) ≠ 0 := by
  constructor
  · rfl
  · decide

/-- C3, amended. The handler consumes a directional input and the event's
magnitude, but the magnitude is only printed: the index update always uses
the scroller's fixed `scroll_step` set at construction, so the new state is
independent of the event's magnitude. With scroll step 1, 5 frames and
start index 2, the events up, up, down yield indices 3, 4, 3. -/
theorem onscroll_fixed_step :
    (∀ (t : IndexTracker) (b : String) (m₁ m₂ : ℤ),
      (t.onscroll ⟨b, m₁⟩).tracker = (t.onscroll ⟨b, m₂⟩).tracker) ∧
    (((IndexTracker.init
        (List.replicate 5 (List.replicate 10 (List.replicate 10 0)))
        (List.replicate 5 "f") 1 []).tracker).onscroll ⟨"up", 1⟩).tracker.ind
      = 3 ∧
    ((((IndexTracker.init
        (List.replicate 5 (List.replicate 10 (List.replicate 10 0)))
        (List.replicate 5 "f") 1 []).tracker).run
      [⟨"up", 1⟩, ⟨"up", 10⟩]).ind = 4) ∧
    ((((IndexTracker.init
        (List.replicate 5 (List.replicate 10 (List.replicate 10 0)))
        (List.replicate 5 "f") 1 []).tracker).run
      [⟨"up", 1⟩, ⟨"up", 10⟩, ⟨"down", 10⟩]).ind = 3) :=
  ⟨fun _ _ _ _ => rfl, rfl, rfl, rfl⟩

/-- C2. The spectrum and frequency bins of `spectrum_plot` are derived from
the module-level sampling timestep, never from the `rate` parameter: two
calls that differ only in `rate` produce identical results, for every
frame, arrs, max_freq, names and remaining arguments. -/
theorem spectrum_rate_unused (fr : Slice × Slice) (arrs : Arrs)
    (r₁ r₂ : ℚ) (max_freq : Option ℚ) (names : NamesArg)
    (figsize : Option (ℚ × ℚ)) (save_to : Option String) (timestep : ℚ)
    (rfftAbs : List ℚ → List ℚ) (kwargs : List (String × String)) :
    spectrum_plot fr arrs r₁ max_freq names figsize save_to timestep
        rfftAbs kwargs =
      spectrum_plot fr arrs r₂ max_freq names figsize save_to timestep
        rfftAbs kwargs := rfl

/-- C7. `seismic_plot` applied to a bare 2-D array produces exactly the
same figure — same subplots, titles and display effects — as applied to
the single-element sequence containing that array, for every choice of the
remaining arguments. -/
theorem seismic_plot_singleton_equiv (a : Array2) (names : NamesArg)
    (figsize : Option (ℚ × ℚ)) (save_to : Option String)
    (kwargs : List (String × String)) :
    seismic_plot (Arrs.single a) names figsize save_to kwargs =
      seismic_plot (Arrs.seq [a]) names figsize save_to kwargs := rfl

/-- C8. `seismic_plot` accepts `save_to` but never performs a save action:
the produced figure records no save, and the whole result is identical
whatever `save_to` is. -/
theorem seismic_plot_save_to_unused (arrs : Arrs) (names : NamesArg)
    (figsize : Option (ℚ × ℚ)) (s₁ s₂ : Option String)
    (kwargs : List (String × String)) :
    (seismic_plot arrs names figsize s₁ kwargs).savedTo = none ∧
    seismic_plot arrs names figsize s₁ kwargs =
      seismic_plot arrs names figsize s₂ kwargs := ⟨rfl, rfl⟩

/-- C9. Every redraw of the scroller — the one at construction and the one
after each scroll event — clears the surface, renders the current frame
with its axes transposed, titles it with the label at the current index,
forces auto aspect, and sets the vertical extent to `[shape1, 0]`
(inverted) and the horizontal extent to `[0, shape0]` of the untransposed
frame. -/
theorem tracker_update_render (t : IndexTracker) (e : ScrollEvent)
    (frames : List Array2) (names : List String) (s : ℤ)
    (kw : List (String × String)) :
    (t.update.cleared = true ∧
      t.update.image = t.currentFrame.transpose ∧
      t.update.title = t.currentName ∧
      t.update.aspect = "auto" ∧
      t.update.ylim = ((shape1 t.currentFrame : ℤ), 0) ∧
      t.update.xlim = (0, (shape0 t.currentFrame : ℤ))) ∧
    (IndexTracker.init frames names s kw).renders =
      [(IndexTracker.init frames names s kw).tracker.update] ∧
    (t.onscroll e).render = (t.onscroll e).tracker.update :=
  ⟨⟨rfl, rfl, rfl, rfl, rfl, rfl⟩, rfl, rfl⟩

/-- C4, counterexample. The claim says a `max_freq` below the smallest
positive frequency bin yields an empty displayed series. With 4 samples
and unit timestep the bins are `[0, 1/4, 1/2]`; `max_freq = 0` is below
the smallest positive bin `1/4`, yet the zero-frequency bin passes the
`freq <= max_freq` mask, so the displayed series is `[(0, 1)]`, not
empty. -/
theorem max_freq_below_first_bin_counterexample :
    rfftfreq 4 1 = [0, 1/4, 1/2] ∧ (0 : ℚ) < 1/4 ∧
    maskedSeries (rfftfreq 4 1) [1, 1, 1] (some 0) = some [(0, 1)] ∧
    some [((0 : ℚ), (1 : ℚ))] ≠ some ([] : List (ℚ × ℚ)) := by
  refine ⟨?_, by norm_num, ?_, by decide⟩
  · show [(0 : ℚ) / (4 * 1), 1 / (4 * 1), 2 / (4 * 1)] = [0, 1/4, 1/2]
    norm_num
  · show some (List.filter _ _) = _
    norm_num [rfftfreq, maskedSeries, List.range_succ, List.filter]

/-- C4, amended. With `max_freq` given, the displayed series consists of
exactly the one-sided bins with `freq ≤ max_freq`; a negative `max_freq`
yields an empty series; a nonnegative `max_freq` below the smallest
positive bin yields exactly the zero-frequency bin, which is nonempty; and
with `max_freq = None` the masking step fails (the float frequency array is
used as an index), so nothing is displayed at all rather than all bins. -/
theorem spectrum_max_freq_filter :
    (∀ (freqs pows : List ℚ) (m : ℚ),
      maskedSeries freqs pows (some m) =
        some ((freqs.zip pows).filter (fun p => p.1 ≤ m))) ∧
    (∀ (n : ℕ) (d m : ℚ) (pows : List ℚ), 0 ≤ d → m < 0 →
      maskedSeries (rfftfreq n d) pows (some m) = some []) ∧
    (∀ (n : ℕ) (d m p : ℚ) (ps : List ℚ), 0 < d → 0 ≤ m →
      m < 1 / ((n : ℚ) * d) →
      maskedSeries (rfftfreq n d) (p :: ps) (some m) = some [(0, p)]) ∧
    (∀ (fr : Slice × Slice) (a : Array2) (rest : List Array2) (r : ℚ)
      (names : NamesArg) (figsize : Option (ℚ × ℚ))
      (save_to : Option String) (timestep : ℚ)
      (rfftAbs : List ℚ → List ℚ) (kwargs : List (String × String)),
      spectrum_plot fr (Arrs.seq (a :: rest)) r none names figsize save_to
        timestep rfftAbs kwargs = none) := by
  refine ⟨fun _ _ _ => rfl, ?_, ?_, fun _ _ _ _ _ _ _ _ _ _ => rfl⟩
  · intro n d m pows hd hm
    show some (List.filter _ _) = _
    refine congrArg some (List.filter_eq_nil_iff.mpr ?_)
    rintro ⟨x, y⟩ hxy
    have hx : x ∈ rfftfreq n d := (List.of_mem_zip hxy).1
    rw [rfftfreq] at hx
    obtain ⟨k, _, hk⟩ := List.mem_map.mp hx
    have hx0 : 0 ≤ x := by
      rw [← hk]
      exact div_nonneg (Nat.cast_nonneg k)
        (mul_nonneg (Nat.cast_nonneg n) hd)
    simp only [decide_eq_true_eq]
    intro hle
    linarith
  · intro n d m p ps hd hm0 hm1
    show some (List.filter _ _) = _
    refine congrArg some ?_
    rw [rfftfreq, List.range_succ_eq_map, List.map_cons, Nat.cast_zero,
      zero_div, List.zip_cons_cons, List.filter_cons]
    rw [if_pos (by simpa using hm0)]
    refine congrArg (List.cons _) (List.filter_eq_nil_iff.mpr ?_)
    rintro ⟨x, y⟩ hxy
    have hx : x ∈ List.map (fun (k : ℕ) => (k : ℚ) / ((n : ℚ) * d))
        (List.map Nat.succ (List.range (n / 2))) := (List.of_mem_zip hxy).1
    rw [List.map_map] at hx
    obtain ⟨j, hj, hk⟩ := List.mem_map.mp hx
    have hn2 : 2 ≤ n := by
      have := List.mem_range.mp hj
      omega
    have hnd : 0 < (n : ℚ) * d := by
      have hn0 : (0 : ℚ) < (n : ℚ) := by
        exact_mod_cast Nat.lt_of_lt_of_le (by norm_num) hn2
      exact mul_pos hn0 hd
    have hge : 1 / ((n : ℚ) * d) ≤ x := by
      rw [← hk]
      show 1 / ((n : ℚ) * d) ≤ ((j + 1 : ℕ) : ℚ) / ((n : ℚ) * d)
      refine (div_le_div_iff_of_pos_right hnd).mpr ?_
      exact_mod_cast Nat.succ_le_succ (Nat.zero_le j)
    simp only [decide_eq_true_eq]
    intro hle
    linarith

/-- Witness for C4: with 4 samples and unit timestep, `max_freq = -1`
filters out every bin, and `max_freq = 0` keeps exactly the zero bin. -/
theorem spectrum_max_freq_filter_witness :
    maskedSeries (rfftfreq 4 1) [1, 2] (some (-1)) = some [] ∧
    maskedSeries (rfftfreq 4 1) [2, 3, 5] (some 0) = some [(0, 2)] :=
  ⟨spectrum_max_freq_filter.2.1 4 1 (-1) [1, 2] (by norm_num) (by norm_num),
    spectrum_max_freq_filter.2.2.1 4 1 0 2 [3, 5] (by norm_num)
      (by norm_num) (by norm_num)⟩

end Geolog
